import Mathlib

/-
Verification of the aislib sentence Router (src/router.go).

The Go function `Router(sentence string) (*Message, error)` is embedded as a
Lean function over the sentence text.  Strings are modelled at the character
level (NMEA sentences are ASCII, so Go's byte indexing and Lean's character
indexing agree on every input considered here).  Go panics (out-of-range
string or slice indexing) are modelled explicitly by a third result
constructor, so that in-bounds claims can be settled.

The two external collaborators are parameters:
  - the checksum verifier `checksum : String → Bool`
    (Go: Nmea183ChecksumCheck, not part of src/);
  - the payload classifier `classify : String → Fin 256`
    (Go: MessageType, returning uint8, not part of src/).
-/

namespace Aislib

/-- Message mirrors the Go struct: the fields are Go's Type, Payload and
Padding; Type and Padding are uint8 values represented as Nat.  The first
field is lowercased because Type is a Lean keyword. -/
structure Message where
  type : Nat
  Payload : String
  Padding : Nat
deriving Repr, DecidableEq

/-- Result of one Router call.  The Go function returns (*Message, error);
`ok` is a non-nil message with nil error, `err` a nil message with non-nil
error, and `panics` models a Go runtime panic (index out of range). -/
inductive GoResult where
  | ok : Message → GoResult
  | err : String → GoResult
  | panics : GoResult
deriving Repr, DecidableEq

/-- Go strings.Split(s, ",") on the character list: every comma separates,
empty fields are kept, and the result always has at least one element. -/
def splitCommaChars : List Char → List String
  | [] => [""]
  | c :: cs =>
    let r := splitCommaChars cs
    if c = ',' then "" :: r
    else ⟨c :: (r.headD "").toList⟩ :: r.tail

/-- Go tokens := strings.Split(sentence, ",") (router.go line 62). -/
def goSplit (s : String) : List String := splitCommaChars s.toList

/-- Go string slicing s[lo:hi]: defined when lo ≤ hi ≤ len(s), otherwise a
runtime panic (modelled as none). -/
def goSlice (s : String) (lo hi : Nat) : Option String :=
  if lo ≤ hi ∧ hi ≤ s.length then some ⟨(s.toList.drop lo).take (hi - lo)⟩
  else none

/-- Decimal digit run, as used by strconv.Atoi: non-empty, digits only. -/
def decDigits (cs : List Char) : Option Nat :=
  if cs ≠ [] ∧ cs.all Char.isDigit then
    some (cs.foldl (fun a c => a * 10 + (c.toNat - 48)) 0)
  else none

/-- Go strconv.Atoi: optional sign, then decimal digits; error (none) on an
empty string, any non-digit, a bare sign, or a value outside int64 range. -/
def goAtoi (s : String) : Option Int :=
  match s.toList with
  | '+' :: cs =>
    (decDigits cs).bind fun n => if n ≤ 2 ^ 63 - 1 then some (n : Int) else none
  | '-' :: cs =>
    (decDigits cs).bind fun n => if n ≤ 2 ^ 63 then some (-(n : Int)) else none
  | cs =>
    (decDigits cs).bind fun n => if n ≤ 2 ^ 63 - 1 then some (n : Int) else none

/-- Go uint8(n) conversion of an int: two's-complement truncation, i.e. the
mathematical residue mod 256. -/
def goUint8 (n : Int) : Nat := (n % 256).toNat

/-- The fixed AIS identifier table of router.go lines 55-58 (a Go map used
as a set; a missing key reads as false). -/
def aisIdentifiers : List String :=
  ["ABVD", "ADVD", "AIVD", "ANVD", "ARVD",
   "ASVD", "ATVD", "AXVD", "BSVD", "SAVD"]

/-- Value of a hexadecimal digit character. -/
def hexVal (c : Char) : Option Nat :=
  if '0' ≤ c ∧ c ≤ '9' then some (c.toNat - 48)
  else if 'a' ≤ c ∧ c ≤ 'f' then some (c.toNat - 87)
  else if 'A' ≤ c ∧ c ≤ 'F' then some (c.toNat - 55)
  else none

/-- Modelled from the spec: the checksum collaborator Nmea183ChecksumCheck is
code of this repository that is not under src/.  Section 6 of the spec fixes
its behaviour: the NMEA 0183 trailing star-HH checksum, the XOR of the byte
values between the leading exclamation or dollar sign and the star, compared
against the two trailing hexadecimal digits. -/
def Nmea183ChecksumCheck (s : String) : Bool :=
  match s.toList with
  | [] => false
  | c0 :: rest =>
    if (c0 = '!' ∨ c0 = '$') ∧ 3 ≤ rest.length then
      match rest.drop (rest.length - 3) with
      | ['*', h1, h2] =>
        (match hexVal h1, hexVal h2 with
         | some a, some b =>
           (rest.take (rest.length - 3)).foldl (fun acc c => acc ^^^ c.toNat) 0
             == 16 * a + b
         | _, _ => false)
      | _ => false
    else false

/-- Output of the span-sentence block, together with a ghost flag recording
whether the completion branch (router.go lines 97-101) produced the result.
The flag is instrumentation only; it never influences the result. -/
structure SpanOut where
  result : GoResult
  completed : Bool
deriving Repr, DecidableEq

/-- Lines 74-104 of router.go — the multi-fragment branch — with the local
session variables (count, size, id, payload) at the top of the block taken
as parameters (the function body initialises them to 0, "0", "0", "").
`total` is tokens[1], already read by the caller.  Short-circuit evaluation
of the line-79 condition is preserved: tokens[3] is read, and can panic,
only when the first disjunct is false, or later at line 96. -/
def routerSpan (classify : String → Fin 256) (total : String)
    (tokens : List String) (count : Int) (size id payload : String) : SpanOut :=
  match tokens[2]? with
  | none => ⟨.panics, false⟩
  | some idxs =>
  match goAtoi idxs with
  | none => ⟨.err ("here: " ++ idxs), false⟩
  | some ccount =>
  match (if ccount != count + 1 then some true
         else match tokens[3]? with
              | none => none
              | some t3 =>
                some ((t3 != id && count != 0) || (total != size && count != 0))) with
  | none => ⟨.panics, false⟩
  | some cond =>
  if cond && (decide (0 < count) || ccount != 1) then
    ⟨.err "incomplete/out of order span sentence", false⟩
  else
  let count1 : Int := if cond then 0 else count
  let payload1 : String := if cond then "" else payload
  match tokens[5]? with
  | none => ⟨.panics, false⟩
  | some t5 =>
  let _payload2 := payload1 ++ t5
  if ccount < 1 ∨ 5 < ccount then ⟨.panics, false⟩
  else
  let count2 : Int := count1 + 1
  if ccount == 1 then
    match tokens[3]? with
    | none => ⟨.panics, false⟩
    | some _ => ⟨.ok ⟨255, "", 0⟩, false⟩
  else if size == idxs && count2 == ccount then
    match tokens[6]? with
    | none => ⟨.panics, false⟩
    | some t6 =>
    match t6.toList with
    | [] => ⟨.panics, false⟩
    | c :: _ =>
      let padding : Int := (goAtoi ⟨[c]⟩).getD 0
      -- Lines 99-101: count and payload are reset BEFORE the Message is
      -- built, so the message carries Payload "" and classify "" as type;
      -- the accumulated payload (line 91) is never read.
      ⟨.ok ⟨(classify "").val, "", goUint8 padding⟩, true⟩
  else ⟨.ok ⟨255, "", 0⟩, false⟩

/-- Router (router.go lines 49-105) with the ghost completion flag exposed.
Local state starts every call at count = 0, size = "0", id = "0",
payload = "" (lines 50-52); tokens = goSplit sentence.
tokens[0] always exists (Split returns at least one element); the slice
tokens[0][1:5] and the reads tokens[1], tokens[5] can panic. -/
def RouterFull (checksum : String → Bool) (classify : String → Fin 256)
    (sentence : String) : SpanOut :=
  if sentence.length = 0 then ⟨.err "empty line", false⟩
  else
  if (checksum sentence) = false then ⟨.err "checksum failed", false⟩
  else
  match goSlice ((goSplit sentence).headD "") 1 5 with
  | none => ⟨.panics, false⟩
  | some ident =>
  if (aisIdentifiers.contains ident) = false then
    ⟨.err "sentence isn't AIVDM/AIVDO", false⟩
  else
  match (goSplit sentence)[1]? with
  | none => ⟨.panics, false⟩
  | some total =>
  if total == "1" then
    match (goSplit sentence)[5]? with
    | none => ⟨.panics, false⟩
    | some t5 => ⟨.ok ⟨(classify t5).val, t5, 0⟩, false⟩
  else routerSpan classify total (goSplit sentence) 0 "0" "0" ""

/-- Router as the Go caller sees it: the pair (*Message, error). -/
def Router (checksum : String → Bool) (classify : String → Fin 256)
    (sentence : String) : GoResult :=
  (RouterFull checksum classify sentence).result

/-- Sequential consumption of a list of sentences.  The Go function keeps no
state between calls (every session variable is a local), so a run is the
independent processing of each sentence in order. -/
def runSeq (checksum : String → Bool) (classify : String → Fin 256)
    (sentences : List String) : List GoResult :=
  sentences.map (Router checksum classify)

/-- A checksum collaborator that accepts everything (used to instantiate
theorems whose hypotheses only require certain sentences to pass). -/
def ckTrue : String → Bool := fun _ => true

/-- A classifier collaborator that classifies every payload as type 0. -/
def clZero : String → Fin 256 := fun _ => 0

/-
Concrete sentences used below.  All checksums are genuine NMEA 0183
checksums, verified against the spec-modelled Nmea183ChecksumCheck inside
the theorems themselves.

  frag1  = fragment 1 of 2, sequence id "1", payload "AAA"
  frag2  = fragment 2 of 2, sequence id "1", payload "BBB", padding 2
  frag2c = frag2 with its payload corrupted ("BBC"), checksum now stale
  inj    = fragment 1 of 3, sequence id "7" — wrong index, id and total
           with respect to a session started by frag1
-/

def frag1 : String := "!AIVDM,2,1,1,A,AAA,0*55"

def frag2 : String := "!AIVDM,2,2,1,A,BBB,2*57"

def frag2c : String := "!AIVDM,2,2,1,A,BBC,2*57"

def inj : String := "!AIVDM,3,1,7,A,CCC,0*50"

/-- Claim C1: for an in-order fragment sequence with consistent sequence id
and total, the final call is claimed to return a Message whose Payload is
the concatenation of the fragment payloads and whose Padding is the last
fragment's declared padding.  The code contradicts this twice: (1) the
session variables are function locals, so the second fragment is processed
against a fresh empty session and rejected; (2) even when the completion
branch runs (shown here on the session state a persisted first fragment
would produce: count = 1, size = "2", id = "1", payload = "AAA"), lines
99-101 reset payload to "" before the Message is built, so the returned
Payload is "" and the type is the classifier applied to "", not to
"AAABBB".  Padding (2) is the only field delivered as claimed. -/
theorem c1_concatenated_payload_lost :
    Nmea183ChecksumCheck frag1 = true ∧
    Nmea183ChecksumCheck frag2 = true ∧
    Router Nmea183ChecksumCheck clZero frag1 = .ok ⟨255, "", 0⟩ ∧
    Router Nmea183ChecksumCheck clZero frag2 =
      .err "incomplete/out of order span sentence" ∧
    routerSpan clZero "2" (goSplit frag2) 1 "2" "1" "AAA" =
      ⟨.ok ⟨(clZero "").val, "", 2⟩, true⟩ := by
  decide

/-- Claim C2: the fragment session is claimed to survive across calls as
Router-instance state.  In the code every session variable (count, size,
id, payload, cache) is a local of the function, reinitialised on every
call, so after fragment 1 is accepted the next call starts from the empty
session and rejects the matching in-order fragment 2. -/
theorem c2_session_not_persistent :
    runSeq Nmea183ChecksumCheck clZero [frag1, frag2] =
      [.ok ⟨255, "", 0⟩, .err "incomplete/out of order span sentence"] := by
  decide

/-- Claim C3: a non-completing accepted fragment is claimed to produce the
pending outcome: no Message and no error.  The code instead falls through
to line 104 and returns the non-nil sentinel Message with type 255 and nil
error — the very value its own doc comment reserves for the end-of-stream
signal. -/
theorem c3_pending_returns_sentinel_message :
    Router Nmea183ChecksumCheck clZero frag1 = .ok ⟨255, "", 0⟩ := by
  decide

/-- Claim C4: the Router is claimed never to crash, every field access
being in bounds.  Two checksum-valid NMEA frames refute this: on
"!AIVD,1,x*53" (a recognised identifier, declared total "1", but only
three comma fields) line 73 reads tokens[5] out of range; on "!AI,x*5C"
(first field shorter than five characters) line 68 takes the slice
tokens[0][1:5] out of range.  Both are Go runtime panics. -/
theorem c4_field_access_out_of_bounds :
    Nmea183ChecksumCheck "!AIVD,1,x*53" = true ∧
    Router Nmea183ChecksumCheck clZero "!AIVD,1,x*53" = .panics ∧
    Nmea183ChecksumCheck "!AI,x*5C" = true ∧
    Router Nmea183ChecksumCheck clZero "!AI,x*5C" = .panics := by
  decide

/-- Claim C5: a checksum-failing sentence is claimed to leave the session
unchanged, so that after frag1, then the corrupted frag2c, the correct
frag2 still completes the original session.  The code does return the
error "checksum failed" for frag2c without touching any session state,
but the scenario still fails: no session survives any call, so the
correct fragment 2 is rejected instead of completing the session. -/
theorem c5_corrupted_then_correct_fragment :
    runSeq Nmea183ChecksumCheck clZero [frag1, frag2c, frag2] =
      [.ok ⟨255, "", 0⟩, .err "checksum failed",
       .err "incomplete/out of order span sentence"] := by
  decide

/-- Claim C6: injecting a fragment with a wrong index, wrong sequence id or
wrong declared total into an in-progress session is claimed to report a
failure and reset the session.  In the code no session is ever in progress
(state is per-call), and an injected index-1 fragment with a different id
and total (inj, after frag1) is not reported as a failure at all: both
calls return the sentinel Message with nil error. -/
theorem c6_injected_fragment_reports_no_failure :
    Nmea183ChecksumCheck inj = true ∧
    runSeq Nmea183ChecksumCheck clZero [frag1, inj] =
      [.ok ⟨255, "", 0⟩, .ok ⟨255, "", 0⟩] := by
  decide

/-- Claim C7 counterexample: "!AIVD,1,yy*2B" is non-empty, carries a valid
checksum, a recognised identifier (AIVD) and declared total "1", yet the
call does not return a Message: with only three comma fields the read of
tokens[5] at line 73 is a Go runtime panic. -/
theorem c7_counterexample :
    Nmea183ChecksumCheck "!AIVD,1,yy*2B" = true ∧
    Router Nmea183ChecksumCheck clZero "!AIVD,1,yy*2B" = .panics := by
  decide

/-- Claim C7 (amended with: and having at least six comma-separated
fields): every non-empty sentence passing the checksum whose first field
yields a recognised four-character identifier and whose field 1 is "1"
returns, in the same call, the completed Message with type classify(field
5), Payload field 5 and Padding 0 — never a pending outcome. -/
theorem c7_single_fragment_fast_path (checksum : String → Bool)
    (classify : String → Fin 256) (s ident t5 : String)
    (hne : s.length ≠ 0)
    (hck : checksum s = true)
    (hid : goSlice ((goSplit s).headD "") 1 5 = some ident)
    (hmem : ident ∈ aisIdentifiers)
    (h1 : (goSplit s)[1]? = some "1")
    (h5 : (goSplit s)[5]? = some t5) :
    Router checksum classify s = .ok ⟨(classify t5).val, t5, 0⟩ := by
  have hid2 : goSlice ((goSplit s).head?.getD "") 1 5 = some ident := by
    simpa using hid
  unfold Router RouterFull
  simp [hne, hck, hid, hid2, hmem, h1, h5]

/-- Claim C7 witness: the amended theorem applied to the spec section 8
example sentence. -/
theorem c7_single_fragment_fast_path_witness :
    Router ckTrue clZero "!AIVDM,1,1,,B,15NPOOPP00G?5ABEdu>pEowb0,0*3B" =
      .ok ⟨0, "15NPOOPP00G?5ABEdu>pEowb0", 0⟩ :=
  c7_single_fragment_fast_path ckTrue clZero
    "!AIVDM,1,1,,B,15NPOOPP00G?5ABEdu>pEowb0,0*3B" "AIVD"
    "15NPOOPP00G?5ABEdu>pEowb0"
    (by decide) (by decide) (by decide) (by decide) (by decide) (by decide)

/-- Claim C8: on the multi-fragment path (field 1 not "1"), a field 2 that
does not parse as an integer is a hard error whose reason is "here: "
followed by the field text, and no Message is produced (the err
constructor carries no Message). -/
theorem c8_malformed_index_error (checksum : String → Bool)
    (classify : String → Fin 256) (s ident total t2 : String)
    (hne : s.length ≠ 0)
    (hck : checksum s = true)
    (hid : goSlice ((goSplit s).headD "") 1 5 = some ident)
    (hmem : ident ∈ aisIdentifiers)
    (h1 : (goSplit s)[1]? = some total)
    (htot : total ≠ "1")
    (h2 : (goSplit s)[2]? = some t2)
    (hatoi : goAtoi t2 = none) :
    Router checksum classify s = .err ("here: " ++ t2) := by
  have hid2 : goSlice ((goSplit s).head?.getD "") 1 5 = some ident := by
    simpa using hid
  unfold Router RouterFull routerSpan
  simp [hne, hck, hid, hid2, hmem, h1, htot, h2, hatoi]

/-- Claim C8 witness: a checksum-valid sentence whose fragment index field
is the non-numeric "x". -/
theorem c8_malformed_index_error_witness :
    Router Nmea183ChecksumCheck clZero "!AIVDM,2,x,1,A,PPP,0*0D" =
      .err ("here: " ++ "x") :=
  c8_malformed_index_error Nmea183ChecksumCheck clZero
    "!AIVDM,2,x,1,A,PPP,0*0D" "AIVD" "2" "x"
    (by decide) (by decide) (by decide) (by decide) (by decide) (by decide)
    (by decide) (by decide)

/-- Claim C9: rejection is idempotent.  The Router keeps no state between
calls (every session variable is a function local), so processing a list
of sentences is the independent processing of each one; feeding the same
malformed sentence twice therefore yields the identical error both
times. -/
theorem c9_rejection_idempotent (checksum : String → Bool)
    (classify : String → Fin 256) (s e : String)
    (h : Router checksum classify s = .err e) :
    runSeq checksum classify [s, s] = [.err e, .err e] := by
  simp [runSeq, h]

/-- Claim C9 witness: the empty sentence is rejected with the same error in
two consecutive calls. -/
theorem c9_rejection_idempotent_witness :
    runSeq ckTrue clZero ["", ""] = [.err "empty line", .err "empty line"] :=
  c9_rejection_idempotent ckTrue clZero "" "empty line" (by decide)

/-- Helper for claim C10: from the initial per-call session state
(count = 0) the span block never takes the completion branch, whatever the
tokens are: falling past the continuity check with count = 0 forces
ccount = 1, which takes the first-fragment branch instead. -/
theorem routerSpan_initial_never_completes (classify : String → Fin 256)
    (total : String) (tokens : List String) (size id payload : String) :
    (routerSpan classify total tokens 0 size id payload).completed = false := by
  unfold routerSpan
  repeat' split
  all_goals try rfl
  all_goals exfalso
  all_goals simp_all

/-- Claim C10: any sentence that passes the emptiness, checksum and
identifier checks, whose field 1 is not "1" and whose field 2 parses to an
integer different from 1, is rejected with "incomplete/out of order span
sentence"; and, because every call starts from the empty local session, no
call on any input ever reaches the multi-fragment completion branch (the
ghost flag of RouterFull is false on all inputs). -/
theorem c10_nonfirst_fragment_rejected (checksum : String → Bool)
    (classify : String → Fin 256) (s ident total t2 : String) (n : Int)
    (hne : s.length ≠ 0)
    (hck : checksum s = true)
    (hid : goSlice ((goSplit s).headD "") 1 5 = some ident)
    (hmem : ident ∈ aisIdentifiers)
    (h1 : (goSplit s)[1]? = some total)
    (htot : total ≠ "1")
    (h2 : (goSplit s)[2]? = some t2)
    (hatoi : goAtoi t2 = some n)
    (hn : n ≠ 1) :
    Router checksum classify s = .err "incomplete/out of order span sentence" ∧
    ∀ t : String, (RouterFull checksum classify t).completed = false := by
  constructor
  · have hid2 : goSlice ((goSplit s).head?.getD "") 1 5 = some ident := by
      simpa using hid
    unfold Router RouterFull routerSpan
    simp [hne, hck, hid, hid2, hmem, h1, htot, h2, hatoi, hn]
  · intro t
    unfold RouterFull
    split
    · rfl
    split
    · rfl
    split
    · rfl
    split
    · rfl
    split
    · rfl
    split
    · split
      · rfl
      · rfl
    · exact routerSpan_initial_never_completes classify _ _ "0" "0" ""

/-- Claim C10 witness: the correct second fragment frag2, arriving first,
is rejected, and the completion flag is false on that input. -/
theorem c10_nonfirst_fragment_rejected_witness :
    Router Nmea183ChecksumCheck clZero "!AIVDM,2,2,1,A,BBB,2*57" =
      .err "incomplete/out of order span sentence" ∧
    (RouterFull Nmea183ChecksumCheck clZero "!AIVDM,2,2,1,A,BBB,2*57").completed
      = false :=
  ⟨(c10_nonfirst_fragment_rejected Nmea183ChecksumCheck clZero
      "!AIVDM,2,2,1,A,BBB,2*57" "AIVD" "2" "2" 2
      (by decide) (by decide) (by decide) (by decide) (by decide) (by decide)
      (by decide) (by decide) (by decide)).1,
   (c10_nonfirst_fragment_rejected Nmea183ChecksumCheck clZero
      "!AIVDM,2,2,1,A,BBB,2*57" "AIVD" "2" "2" 2
      (by decide) (by decide) (by decide) (by decide) (by decide) (by decide)
      (by decide) (by decide) (by decide)).2
     "!AIVDM,2,2,1,A,BBB,2*57"⟩

end Aislib
